import Mathlib

/-!
Verification of the invoice-upload PDF validation pipeline
(fineksi/fin-invoice-ocr-team6).

The controller `uploadInvoice` and the route wiring are embedded from
src/backend/src/controllers/invoiceController.js and
src/backend/src/routes/invoiceRoutes.js.  The service functions
(validatePDF, validateSizeFile, isPdfEncrypted, checkPdfIntegrity) live in
backend/src/services/invoiceServices.js, which is not part of the sources
here (only its test file is); those are modelled from the spec, faithful to
its component contracts and checked against the repository's test fixtures.

File contents are modelled as byte strings: one `Char` per byte, which is
exact for the ASCII fixtures and byte counts involved.
-/

set_option maxRecDepth 40000

/-- Decidable equality on `Except`, needed to evaluate outcome comparisons. -/
def exceptDecEq {ε α : Type} [DecidableEq ε] [DecidableEq α] :
    (a b : Except ε α) → Decidable (a = b)
  | Except.ok a, Except.ok b =>
      if h : a = b then Decidable.isTrue (by rw [h])
      else Decidable.isFalse (by simp [h])
  | Except.ok _, Except.error _ => Decidable.isFalse (by simp)
  | Except.error _, Except.ok _ => Decidable.isFalse (by simp)
  | Except.error e, Except.error e' =>
      if h : e = e' then Decidable.isTrue (by rw [h])
      else Decidable.isFalse (by simp [h])

instance {ε α : Type} [DecidableEq ε] [DecidableEq α] : DecidableEq (Except ε α) :=
  exceptDecEq

namespace FinInvoice

/-- File content: a byte string, one `Char` per byte. -/
abbrev Content := String

/-- The uploaded file as produced by multer: raw bytes, original filename,
declared MIME type (`req.file` in the controller). -/
structure UploadedFile where
  buffer : Content
  originalname : String
  mimetype : String
deriving DecidableEq

/-- A JavaScript-ish query-parameter value, enough to express the strict
equality test `req.query.simulateTimeout === 'true'`: a string, a boolean,
or absent (undefined). -/
inductive QueryVal where
  | str (s : String)
  | bool (b : Bool)
  | undefined
deriving DecidableEq

/-- JS strict equality `q === 'true'`: true exactly on the string "true";
false on every other string, on booleans and on undefined. -/
def QueryVal.isStrTrue : QueryVal → Bool
  | .str s => s = "true"
  | _ => false

/-- The part of the Express request the controller reads: `req.file`
(absent when no file-parsing middleware populated it), the credentials from
`req.body`, and `req.query.simulateTimeout`. -/
structure Request where
  file : Option UploadedFile
  client_id : String
  client_secret : String
  simulateTimeout : QueryVal
deriving DecidableEq

/-- An HTTP response: status code and the JSON message sent with it. -/
structure Response where
  status : Nat
  message : String
deriving DecidableEq

/-- Outcomes of the external collaborator calls the controller awaits, one
field per call site.  `Except.error d` models the promise rejecting with a
fault whose internal detail is the string `d`; `Except.ok` models normal
resolution with the returned value. -/
structure Services where
  authenticate : Except String Bool
  validatePDF : Except String Unit
  isPdfEncrypted : Except String Bool
  checkPdfIntegrity : Except String Bool
  validateSizeFile : Except String Unit
  uploadService : Except String String

/-- The stages of the upload pipeline, in the controller's source order. -/
inductive Stage where
  | fileCheck
  | auth
  | timeoutHook
  | format
  | encryption
  | integrity
  | size
  | upload
deriving DecidableEq

/-- The full pipeline order as laid out in `uploadInvoice`. -/
def fullOrder : List Stage :=
  [Stage.fileCheck, Stage.auth, Stage.timeoutHook, Stage.format,
   Stage.encryption, Stage.integrity, Stage.size, Stage.upload]

/-- Embedding of `exports.uploadInvoice` from
src/backend/src/controllers/invoiceController.js (lines 58-107).  The
result is the HTTP response paired with the list of pipeline stages reached,
in the order they were reached (the trace instruments the control flow; the
response component mirrors the source exactly):

* no `req.file` → 400 "No file uploaded";
* `authenticate` rejects → 500 "Internal Server Error" (inner catch),
  resolves false → 401 "Unauthorized";
* `req.query.simulateTimeout === 'true'` → 504 "Server timeout during upload";
* `validatePDF` rejects → 415 "File format is not PDF";
* `isPdfEncrypted` resolves true → 400 "pdf is encrypted";
* `checkPdfIntegrity` resolves false → 400 "PDF file is invalid";
* `validateSizeFile` rejects → 413 "File size exceeds maximum limit";
* service upload resolves with `r` → 501 `r`;
* any other rejection reaches the outer catch → 500 "Internal server error". -/
def uploadInvoice (req : Request) (svc : Services) : Response × List Stage :=
  match req.file with
  | none => (⟨400, "No file uploaded"⟩, [Stage.fileCheck])
  | some _ =>
    match svc.authenticate with
    | Except.error _ =>
        (⟨500, "Internal Server Error"⟩, [Stage.fileCheck, Stage.auth])
    | Except.ok false =>
        (⟨401, "Unauthorized"⟩, [Stage.fileCheck, Stage.auth])
    | Except.ok true =>
      if req.simulateTimeout.isStrTrue then
        (⟨504, "Server timeout during upload"⟩,
         [Stage.fileCheck, Stage.auth, Stage.timeoutHook])
      else
        match svc.validatePDF with
        | Except.error _ =>
            (⟨415, "File format is not PDF"⟩,
             [Stage.fileCheck, Stage.auth, Stage.timeoutHook, Stage.format])
        | Except.ok _ =>
          match svc.isPdfEncrypted with
          | Except.error _ =>
              (⟨500, "Internal server error"⟩,
               [Stage.fileCheck, Stage.auth, Stage.timeoutHook, Stage.format,
                Stage.encryption])
          | Except.ok true =>
              (⟨400, "pdf is encrypted"⟩,
               [Stage.fileCheck, Stage.auth, Stage.timeoutHook, Stage.format,
                Stage.encryption])
          | Except.ok false =>
            match svc.checkPdfIntegrity with
            | Except.error _ =>
                (⟨500, "Internal server error"⟩,
                 [Stage.fileCheck, Stage.auth, Stage.timeoutHook, Stage.format,
                  Stage.encryption, Stage.integrity])
            | Except.ok false =>
                (⟨400, "PDF file is invalid"⟩,
                 [Stage.fileCheck, Stage.auth, Stage.timeoutHook, Stage.format,
                  Stage.encryption, Stage.integrity])
            | Except.ok true =>
              match svc.validateSizeFile with
              | Except.error _ =>
                  (⟨413, "File size exceeds maximum limit"⟩,
                   [Stage.fileCheck, Stage.auth, Stage.timeoutHook, Stage.format,
                    Stage.encryption, Stage.integrity, Stage.size])
              | Except.ok _ =>
                match svc.uploadService with
                | Except.error _ => (⟨500, "Internal server error"⟩, fullOrder)
                | Except.ok r => (⟨501, r⟩, fullOrder)

/-- Route wiring from src/backend/src/routes/invoiceRoutes.js line 5:
`router.post('/upload', InvoiceController.uploadInvoice)` installs the bare
controller with no file-parsing middleware in front.  Modelled Express/multer
semantics: `req.file` is populated only by the multer-based
`uploadMiddleware`; since this route never runs it, the controller sees
`file = none` whatever file field the raw multipart body carried. -/
def postUploadRoute (rawFile : Option UploadedFile) (cid cs : String)
    (q : QueryVal) (svc : Services) : Response × List Stage :=
  uploadInvoice ⟨none, cid, cs, q⟩ svc

/-- Embedding of `exports.uploadMiddleware` (invoiceController.js lines
19-27): multer parses the multipart body into `req.file`; the middleware
answers 400 "No file uploaded" when no file was provided and otherwise
passes the populated request to the next handler. -/
def uploadMiddleware (rawFile : Option UploadedFile)
    (next : UploadedFile → Response × List Stage) : Response × List Stage :=
  match rawFile with
  | none => (⟨400, "No file uploaded"⟩, [])
  | some f => next f

end FinInvoice

namespace FinInvoice.InvoiceServices

/-- The error kinds of the format validator (spec §4.1 and the test corpus:
"Invalid MIME type", "Invalid file extension", "Invalid PDF file"). -/
inductive FormatError where
  | invalidMimeType
  | invalidExtension
  | invalidPdfContent
deriving DecidableEq

/-- Does the byte string `s` begin with `pre`? -/
def strStarts (s pre : Content) : Bool :=
  pre.data.isPrefixOf s.data

/-- Does the byte string `s` end with `suf`? -/
def strEnds (s suf : Content) : Bool :=
  suf.data.isSuffixOf s.data

/-- Modelled from the spec: `validatePDF(content, mimetype, filename)` of
backend/src/services/invoiceServices.js, whose implementation is not among
the sources here (only its tests are).  Spec §4.1: fail InvalidMimeType
unless the declared MIME type equals "application/pdf"; else fail
InvalidExtension unless the filename extension is ".pdf"; else fail
InvalidPdfContent unless the content begins with the "%PDF-" signature;
checks run MIME → extension → content and the first failure short-circuits.
Consistent with the test corpus in the sources. -/
def validatePDF (content : Content) (mimetype filename : String) :
    Except FormatError Unit :=
  if mimetype = "application/pdf" then
    if strEnds filename ".pdf" then
      if strStarts content "%PDF-" then Except.ok ()
      else Except.error FormatError.invalidPdfContent
    else Except.error FormatError.invalidExtension
  else Except.error FormatError.invalidMimeType

/-- The maximum allowed file size in bytes (spec §4.2: exactly
20 × 1024 × 1024). -/
def MAX_FILE_SIZE : Nat := 20 * 1024 * 1024

/-- Modelled from the spec: `validateSizeFile(content)` of
backend/src/services/invoiceServices.js, whose implementation is not among
the sources here.  Spec §4.2: the bound is inclusive — content of byte
length at most 20 × 1024 × 1024 passes, any strictly larger content fails
FileTooLarge (the test corpus's rejection message names the 20MB bound). -/
def validateSizeFile (content : Content) : Except String Unit :=
  if content.length > MAX_FILE_SIZE then
    Except.error "File exceeds maximum allowed size of 20MB"
  else Except.ok ()

/-- Substring occurrence over byte lists: does `needle` occur contiguously
anywhere in the second argument? -/
def containsSub (needle : List Char) : List Char → Bool
  | [] => needle.isEmpty
  | c :: rest => needle.isPrefixOf (c :: rest) || containsSub needle rest

/-- Substring occurrence over byte strings. -/
def occursIn (needle hay : Content) : Bool :=
  containsSub needle.data hay.data

/-- Modelled from the spec: `isPdfEncrypted(content)` of
backend/src/services/invoiceServices.js, whose implementation is not among
the sources here.  Spec §4.3: a heuristic scan of the raw bytes that returns
true when it finds the marker associated with a trailer "/Encrypt" reference
and/or a "/Filter/Standard" encryption dictionary, false otherwise. -/
def isPdfEncrypted (content : Content) : Bool :=
  occursIn "/Encrypt" content || occursIn "/Filter/Standard" content

end FinInvoice.InvoiceServices

namespace FinInvoice

/-- The minimal unencrypted PDF fixture from the repository's encryption
tests: header, catalog/pages/page objects, xref, trailer without an Encrypt
key. -/
def unencryptedPdfFixture : Content :=
  "%PDF-1.3\n" ++
  "1 0 obj\n<</Type/Catalog/Pages 2 0 R>>\nendobj\n" ++
  "2 0 obj\n<</Type/Pages/Kids[3 0 R]/Count 1>>\nendobj\n" ++
  "3 0 obj\n<</Type/Page/MediaBox[0 0 595 842]/Parent 2 0 R/Resources<<>>>>\nendobj\n" ++
  "xref\n0 4\n0000000000 65535 f\n0000000010 00000 n\n0000000053 00000 n\n0000000102 00000 n\n" ++
  "trailer\n<</Size 4/Root 1 0 R>>\n" ++
  "startxref\n178\n%%EOF"

/-- The minimal encrypted PDF fixture from the repository's encryption
tests: as above plus an object 4 holding a /Filter/Standard encryption
dictionary and a trailer referencing object 4 as /Encrypt. -/
def encryptedPdfFixture : Content :=
  "%PDF-1.3\n" ++
  "1 0 obj\n<</Type/Catalog/Pages 2 0 R>>\nendobj\n" ++
  "2 0 obj\n<</Type/Pages/Kids[3 0 R]/Count 1>>\nendobj\n" ++
  "3 0 obj\n<</Type/Page/MediaBox[0 0 595 842]/Parent 2 0 R/Resources<<>>>>\nendobj\n" ++
  "4 0 obj\n<</Filter/Standard/V 1/R 2/O<1234567890ABCDEF1234567890ABCDEF>/U<ABCDEF1234567890ABCDEF1234567890>/P -3904>>\nendobj\n" ++
  "xref\n0 5\n0000000000 65535 f\n0000000010 00000 n\n0000000053 00000 n\n0000000102 00000 n\n0000000183 00000 n\n" ++
  "trailer\n<</Size 5/Root 1 0 R/Encrypt 4 0 R>>\n" ++
  "startxref\n291\n%%EOF"

/-- A concrete well-formed uploaded file used to instantiate witnesses. -/
def sampleFile : UploadedFile :=
  ⟨"%PDF-1.4 Valid PDF File", "valid.pdf", "application/pdf"⟩

end FinInvoice

namespace FinInvoice

/-- The simulated-timeout test fires exactly on the string value "true". -/
theorem isStrTrue_iff (q : QueryVal) :
    QueryVal.isStrTrue q = true ↔ q = QueryVal.str "true" := by
  cases q with
  | str s => simp [QueryVal.isStrTrue]
  | bool b => simp [QueryVal.isStrTrue]
  | undefined => simp [QueryVal.isStrTrue]

/-- Whatever the request and collaborator outcomes, the trace of reached
stages is an initial segment of the full pipeline order: stages run in the
fixed order and nothing runs after the terminating stage. -/
theorem trace_initial_segment (req : Request) (svc : Services) :
    ((uploadInvoice req svc).2).isPrefixOf fullOrder = true := by
  obtain ⟨fo, cid, cs, q⟩ := req
  obtain ⟨a, v, e, i, sz, u⟩ := svc
  rcases fo with _ | f
  · rfl
  rcases a with d | (_ | _)
  · rfl
  · rfl
  cases hq : QueryVal.isStrTrue q with
  | true => simp only [uploadInvoice, hq]; rfl
  | false =>
    rcases v with _ | _ <;> rcases e with _ | (_ | _) <;>
      rcases i with _ | (_ | _) <;> rcases sz with _ | _ <;>
      rcases u with _ | _ <;> (simp only [uploadInvoice, hq]; rfl)

end FinInvoice

namespace FinInvoice

/-- C1: `uploadInvoice` applies the stages in the fixed order — file-presence
check (400 on no file), authentication (401 on rejection), simulated-timeout
hook (504), format validation (415), encryption detection (400), integrity
check (400), size validation (413), then delegation to the external upload
call (501) — and the first failing stage terminates the pipeline with no later
stage invoked (the trace of reached stages is always an initial segment of the
full order, stopping at the terminating stage). -/
theorem c1_pipeline_order (f : UploadedFile) (cid cs : String) (q : QueryVal)
    (a : Except String Bool) (v : Except String Unit) (e i : Except String Bool)
    (sz : Except String Unit) (u : Except String String) (d r : String)
    (hq : QueryVal.isStrTrue q = false) :
    (∀ (req : Request) (svc : Services),
      ((uploadInvoice req svc).2).isPrefixOf fullOrder = true) ∧
    uploadInvoice ⟨none, cid, cs, q⟩ ⟨a, v, e, i, sz, u⟩ =
      (⟨400, "No file uploaded"⟩, [Stage.fileCheck]) ∧
    uploadInvoice ⟨some f, cid, cs, q⟩ ⟨Except.ok false, v, e, i, sz, u⟩ =
      (⟨401, "Unauthorized"⟩, [Stage.fileCheck, Stage.auth]) ∧
    uploadInvoice ⟨some f, cid, cs, QueryVal.str "true"⟩
        ⟨Except.ok true, v, e, i, sz, u⟩ =
      (⟨504, "Server timeout during upload"⟩,
       [Stage.fileCheck, Stage.auth, Stage.timeoutHook]) ∧
    uploadInvoice ⟨some f, cid, cs, q⟩ ⟨Except.ok true, Except.error d, e, i, sz, u⟩ =
      (⟨415, "File format is not PDF"⟩,
       [Stage.fileCheck, Stage.auth, Stage.timeoutHook, Stage.format]) ∧
    uploadInvoice ⟨some f, cid, cs, q⟩
        ⟨Except.ok true, Except.ok (), Except.ok true, i, sz, u⟩ =
      (⟨400, "pdf is encrypted"⟩,
       [Stage.fileCheck, Stage.auth, Stage.timeoutHook, Stage.format,
        Stage.encryption]) ∧
    uploadInvoice ⟨some f, cid, cs, q⟩
        ⟨Except.ok true, Except.ok (), Except.ok false, Except.ok false, sz, u⟩ =
      (⟨400, "PDF file is invalid"⟩,
       [Stage.fileCheck, Stage.auth, Stage.timeoutHook, Stage.format,
        Stage.encryption, Stage.integrity]) ∧
    uploadInvoice ⟨some f, cid, cs, q⟩
        ⟨Except.ok true, Except.ok (), Except.ok false, Except.ok true,
         Except.error d, u⟩ =
      (⟨413, "File size exceeds maximum limit"⟩,
       [Stage.fileCheck, Stage.auth, Stage.timeoutHook, Stage.format,
        Stage.encryption, Stage.integrity, Stage.size]) ∧
    uploadInvoice ⟨some f, cid, cs, q⟩
        ⟨Except.ok true, Except.ok (), Except.ok false, Except.ok true,
         Except.ok (), Except.ok r⟩ =
      (⟨501, r⟩, fullOrder) := by
  refine ⟨trace_initial_segment, rfl, rfl, rfl, ?_, ?_, ?_, ?_, ?_⟩ <;>
    simp [uploadInvoice, hq]

/-- Witness for C1 at concrete inputs: the no-file branch of the pipeline
theorem instantiated at an empty request. -/
theorem c1_pipeline_order_witness :
    uploadInvoice ⟨none, "id", "secret", QueryVal.undefined⟩
      ⟨Except.ok true, Except.ok (), Except.ok false, Except.ok true,
       Except.ok (), Except.ok "r"⟩ =
      (⟨400, "No file uploaded"⟩, [Stage.fileCheck]) :=
  (c1_pipeline_order sampleFile "id" "secret" QueryVal.undefined
    (Except.ok true) (Except.ok ()) (Except.ok false) (Except.ok true)
    (Except.ok ()) (Except.ok "r") "detail" "r" rfl).2.1

/-- C2: a fault raised by any collaborator outside the explicitly enumerated
failure branches — the authenticator (inner catch) or the encryption,
integrity and upload calls (outer catch) — yields HTTP 500 with a fixed
generic message; the fault's detail `d` does not occur in the response, which
is a constant independent of `d`, so no internal detail reaches the caller. -/
theorem c2_unexpected_fault_internal_error (f : UploadedFile) (cid cs : String)
    (q : QueryVal) (d : String) (v : Except String Unit) (e i : Except String Bool)
    (sz : Except String Unit) (u : Except String String)
    (hq : QueryVal.isStrTrue q = false) :
    (uploadInvoice ⟨some f, cid, cs, q⟩ ⟨Except.error d, v, e, i, sz, u⟩).1 =
      ⟨500, "Internal Server Error"⟩ ∧
    (uploadInvoice ⟨some f, cid, cs, q⟩
        ⟨Except.ok true, Except.ok (), Except.error d, i, sz, u⟩).1 =
      ⟨500, "Internal server error"⟩ ∧
    (uploadInvoice ⟨some f, cid, cs, q⟩
        ⟨Except.ok true, Except.ok (), Except.ok false, Except.error d, sz, u⟩).1 =
      ⟨500, "Internal server error"⟩ ∧
    (uploadInvoice ⟨some f, cid, cs, q⟩
        ⟨Except.ok true, Except.ok (), Except.ok false, Except.ok true,
         Except.ok (), Except.error d⟩).1 =
      ⟨500, "Internal server error"⟩ := by
  refine ⟨rfl, ?_, ?_, ?_⟩ <;> simp [uploadInvoice, hq]

/-- Witness for C2 at concrete inputs: a faulting encryption check yields the
constant 500 response. -/
theorem c2_unexpected_fault_internal_error_witness :
    (uploadInvoice ⟨some sampleFile, "id", "secret", QueryVal.undefined⟩
        ⟨Except.ok true, Except.ok (), Except.error "boom", Except.ok true,
         Except.ok (), Except.ok "r"⟩).1 =
      ⟨500, "Internal server error"⟩ :=
  (c2_unexpected_fault_internal_error sampleFile "id" "secret"
    QueryVal.undefined "boom" (Except.ok ()) (Except.ok false) (Except.ok true)
    (Except.ok ()) (Except.ok "r") rfl).2.1

/-- C7: with a file present, an authenticator that resolves false yields 401
Unauthorized, and an authenticator that rejects with any fault detail yields
the constant 500 "Internal Server Error" response — the same response for
every detail `d`, so nothing about the fault leaks. -/
theorem c7_auth_outcomes (f : UploadedFile) (cid cs : String) (q : QueryVal)
    (v : Except String Unit) (e i : Except String Bool)
    (sz : Except String Unit) (u : Except String String) :
    (uploadInvoice ⟨some f, cid, cs, q⟩ ⟨Except.ok false, v, e, i, sz, u⟩).1 =
      ⟨401, "Unauthorized"⟩ ∧
    ∀ d : String,
      (uploadInvoice ⟨some f, cid, cs, q⟩ ⟨Except.error d, v, e, i, sz, u⟩).1 =
        ⟨500, "Internal Server Error"⟩ :=
  ⟨rfl, fun _ => rfl⟩

/-- Witness for C7 at concrete inputs. -/
theorem c7_auth_outcomes_witness :
    (uploadInvoice ⟨some sampleFile, "id", "bad-secret", QueryVal.undefined⟩
        ⟨Except.ok false, Except.ok (), Except.ok false, Except.ok true,
         Except.ok (), Except.ok "r"⟩).1 = ⟨401, "Unauthorized"⟩ :=
  (c7_auth_outcomes sampleFile "id" "bad-secret" QueryVal.undefined
    (Except.ok ()) (Except.ok false) (Except.ok true) (Except.ok ())
    (Except.ok "r")).1

/-- C8: with a file present and valid credentials, `simulateTimeout` set to
the string "true" yields the 504 response, the trace stops at the timeout
hook, and none of the validator stages (format, encryption, integrity, size)
occurs in the trace — whatever the validator outcomes would have been. -/
theorem c8_simulate_timeout_short_circuit (f : UploadedFile) (cid cs : String)
    (v : Except String Unit) (e i : Except String Bool)
    (sz : Except String Unit) (u : Except String String) :
    uploadInvoice ⟨some f, cid, cs, QueryVal.str "true"⟩
        ⟨Except.ok true, v, e, i, sz, u⟩ =
      (⟨504, "Server timeout during upload"⟩,
       [Stage.fileCheck, Stage.auth, Stage.timeoutHook]) ∧
    Stage.format ∉ (uploadInvoice ⟨some f, cid, cs, QueryVal.str "true"⟩
        ⟨Except.ok true, v, e, i, sz, u⟩).2 ∧
    Stage.encryption ∉ (uploadInvoice ⟨some f, cid, cs, QueryVal.str "true"⟩
        ⟨Except.ok true, v, e, i, sz, u⟩).2 ∧
    Stage.integrity ∉ (uploadInvoice ⟨some f, cid, cs, QueryVal.str "true"⟩
        ⟨Except.ok true, v, e, i, sz, u⟩).2 ∧
    Stage.size ∉ (uploadInvoice ⟨some f, cid, cs, QueryVal.str "true"⟩
        ⟨Except.ok true, v, e, i, sz, u⟩).2 := by
  refine ⟨rfl, ?_, ?_, ?_, ?_⟩ <;> (show _ ∉ [Stage.fileCheck, Stage.auth, Stage.timeoutHook]; simp)

/-- Witness for C8 at concrete inputs. -/
theorem c8_simulate_timeout_short_circuit_witness :
    uploadInvoice ⟨some sampleFile, "id", "secret", QueryVal.str "true"⟩
        ⟨Except.ok true, Except.ok (), Except.ok false, Except.ok true,
         Except.ok (), Except.ok "r"⟩ =
      (⟨504, "Server timeout during upload"⟩,
       [Stage.fileCheck, Stage.auth, Stage.timeoutHook]) :=
  (c8_simulate_timeout_short_circuit sampleFile "id" "secret" (Except.ok ())
    (Except.ok false) (Except.ok true) (Except.ok ()) (Except.ok "r")).1

/-- C9: the POST /upload route invokes `uploadInvoice` without the
file-parsing middleware, so the handler's `req.file` is never populated:
every request through this route — whatever file the raw multipart body
carried, whatever the credentials, query and collaborator outcomes — takes
the no-file branch and returns 400 "No file uploaded"; in particular the 501
delegation outcome is unreachable through this route. -/
theorem c9_route_unreachable_success (rawFile : Option UploadedFile)
    (cid cs : String) (q : QueryVal) (svc : Services) :
    postUploadRoute rawFile cid cs q svc =
      (⟨400, "No file uploaded"⟩, [Stage.fileCheck]) ∧
    (postUploadRoute rawFile cid cs q svc).1.status ≠ 501 :=
  ⟨rfl, fun h => by simp [postUploadRoute, uploadInvoice] at h⟩

/-- Witness for C9 at concrete inputs: even a raw request carrying a valid
file and passing collaborators gets 400 through the wired route. -/
theorem c9_route_unreachable_success_witness :
    postUploadRoute (some sampleFile) "id" "secret" QueryVal.undefined
      ⟨Except.ok true, Except.ok (), Except.ok false, Except.ok true,
       Except.ok (), Except.ok "r"⟩ =
      (⟨400, "No file uploaded"⟩, [Stage.fileCheck]) :=
  (c9_route_unreachable_success (some sampleFile) "id" "secret"
    QueryVal.undefined
    ⟨Except.ok true, Except.ok (), Except.ok false, Except.ok true,
     Except.ok (), Except.ok "r"⟩).1

/-- C10: with a file present and the authenticator resolving true, the
response is 504 exactly when `simulateTimeout` is the string value "true",
and the pipeline reaches the format-validator stage exactly when it is any
other value — another string such as "TRUE" or "1", a boolean true, or
absent. -/
theorem c10_timeout_strict_equality (f : UploadedFile) (cid cs : String)
    (q : QueryVal) (v : Except String Unit) (e i : Except String Bool)
    (sz : Except String Unit) (u : Except String String) :
    ((uploadInvoice ⟨some f, cid, cs, q⟩ ⟨Except.ok true, v, e, i, sz, u⟩).1.status = 504 ↔
      q = QueryVal.str "true") ∧
    (Stage.format ∈ (uploadInvoice ⟨some f, cid, cs, q⟩
        ⟨Except.ok true, v, e, i, sz, u⟩).2 ↔
      q ≠ QueryVal.str "true") := by
  cases hq : QueryVal.isStrTrue q with
  | true =>
    have hqe : q = QueryVal.str "true" := (isStrTrue_iff q).mp hq
    subst hqe
    constructor
    · simp [uploadInvoice, QueryVal.isStrTrue]
    · simp [uploadInvoice, QueryVal.isStrTrue]
  | false =>
    have hne : q ≠ QueryVal.str "true" := fun h => by
      rw [(isStrTrue_iff q).mpr h] at hq
      exact Bool.true_eq_false.mp hq
    rcases v with _ | _ <;> rcases e with _ | (_ | _) <;>
      rcases i with _ | (_ | _) <;> rcases sz with _ | _ <;>
      rcases u with _ | _ <;> simp [uploadInvoice, hq, hne, fullOrder]

/-- Witness for C10 at concrete inputs: the string "TRUE" does not fire the
hook and the pipeline reaches the format stage. -/
theorem c10_timeout_strict_equality_witness :
    Stage.format ∈ (uploadInvoice ⟨some sampleFile, "id", "secret",
        QueryVal.str "TRUE"⟩
      ⟨Except.ok true, Except.ok (), Except.ok false, Except.ok true,
       Except.ok (), Except.ok "r"⟩).2 :=
  ((c10_timeout_strict_equality sampleFile "id" "secret" (QueryVal.str "TRUE")
    (Except.ok ()) (Except.ok false) (Except.ok true) (Except.ok ())
    (Except.ok "r")).2).mpr (by decide)

end FinInvoice

namespace FinInvoice

/-- C3 counterexample: content that does not start with %PDF- together with
an invalid declared MIME type is rejected as InvalidMimeType, not as
InvalidPdfContent — the MIME check short-circuits first, so the claim's
"for every declared MIME type ... including when MIME type and extension are
themselves invalid" fails at this input. -/
theorem c3_vacuous_mime_counterexample :
    InvoiceServices.strStarts "This is not a PDF" "%PDF-" = false ∧
    InvoiceServices.validatePDF "This is not a PDF" "image/png" "invoice.png" =
      Except.error InvoiceServices.FormatError.invalidMimeType ∧
    InvoiceServices.validatePDF "This is not a PDF" "image/png" "invoice.png" ≠
      Except.error InvoiceServices.FormatError.invalidPdfContent := by
  refine ⟨rfl, rfl, ?_⟩
  decide

/-- C3 amended: for all content not starting with %PDF-, the Format
Validator fails — and it fails with InvalidPdfContent whenever the declared
MIME type and the filename extension are themselves valid; when one of them
is invalid, the earlier check's error is reported instead. -/
theorem c3_nonpdf_content_always_fails (content : Content)
    (mimetype filename : String)
    (h : InvoiceServices.strStarts content "%PDF-" = false) :
    InvoiceServices.validatePDF content mimetype filename ≠ Except.ok () ∧
    (mimetype = "application/pdf" →
      InvoiceServices.strEnds filename ".pdf" = true →
      InvoiceServices.validatePDF content mimetype filename =
        Except.error InvoiceServices.FormatError.invalidPdfContent) := by
  constructor
  · by_cases hm : mimetype = "application/pdf"
    · by_cases he : InvoiceServices.strEnds filename ".pdf" = true
      · simp [InvoiceServices.validatePDF, hm, he, h]
      · simp [InvoiceServices.validatePDF, hm, he]
    · simp [InvoiceServices.validatePDF, hm]
  · intro hm he
    simp [InvoiceServices.validatePDF, hm, he, h]

/-- Witness for the amended C3 at the repository's own fixture: the
"This is not a PDF" buffer with valid MIME and extension is rejected as
invalid PDF content. -/
theorem c3_nonpdf_content_always_fails_witness :
    InvoiceServices.validatePDF "This is not a PDF" "application/pdf"
      "invalid.pdf" =
      Except.error InvoiceServices.FormatError.invalidPdfContent :=
  (c3_nonpdf_content_always_fails "This is not a PDF" "application/pdf"
    "invalid.pdf" (by decide)).2 rfl (by decide)

/-- C4: the Format Validator checks MIME type, then extension, then the
content magic bytes; the first failing check fixes the reported error —
an invalid MIME type is reported as InvalidMimeType for every extension and
content, an invalid extension as InvalidExtension for every content, an
invalid content as InvalidPdfContent only once the first two pass — and when
all three pass the validator succeeds. -/
theorem c4_format_checks_short_circuit (content : Content)
    (mimetype filename : String) :
    (mimetype ≠ "application/pdf" →
      InvoiceServices.validatePDF content mimetype filename =
        Except.error InvoiceServices.FormatError.invalidMimeType) ∧
    (mimetype = "application/pdf" →
      InvoiceServices.strEnds filename ".pdf" = false →
      InvoiceServices.validatePDF content mimetype filename =
        Except.error InvoiceServices.FormatError.invalidExtension) ∧
    (mimetype = "application/pdf" →
      InvoiceServices.strEnds filename ".pdf" = true →
      InvoiceServices.strStarts content "%PDF-" = false →
      InvoiceServices.validatePDF content mimetype filename =
        Except.error InvoiceServices.FormatError.invalidPdfContent) ∧
    (mimetype = "application/pdf" →
      InvoiceServices.strEnds filename ".pdf" = true →
      InvoiceServices.strStarts content "%PDF-" = true →
      InvoiceServices.validatePDF content mimetype filename = Except.ok ()) := by
  refine ⟨?_, ?_, ?_, ?_⟩
  · intro hm; simp [InvoiceServices.validatePDF, hm]
  · intro hm he; simp [InvoiceServices.validatePDF, hm, he]
  · intro hm he hc; simp [InvoiceServices.validatePDF, hm, he, hc]
  · intro hm he hc; simp [InvoiceServices.validatePDF, hm, he, hc]

/-- Witness for C4 at the repository's fixtures: a valid PDF buffer declared
as image/png is rejected as an invalid MIME type even though its content and
extension checks would rule otherwise. -/
theorem c4_format_checks_short_circuit_witness :
    InvoiceServices.validatePDF "%PDF-1.4 Valid PDF File" "image/png"
      "valid.png" =
      Except.error InvoiceServices.FormatError.invalidMimeType :=
  (c4_format_checks_short_circuit "%PDF-1.4 Valid PDF File" "image/png"
    "valid.png").1 (by decide)

/-- C5: the Size Validator succeeds exactly on content of byte length at
most 20 × 1024 × 1024 — the boundary included — and any strictly larger
content fails with the FileTooLarge rejection. -/
theorem c5_size_boundary (content : Content) :
    (InvoiceServices.validateSizeFile content = Except.ok () ↔
      content.length ≤ 20 * 1024 * 1024) ∧
    (content.length > 20 * 1024 * 1024 →
      InvoiceServices.validateSizeFile content =
        Except.error "File exceeds maximum allowed size of 20MB") := by
  unfold InvoiceServices.validateSizeFile InvoiceServices.MAX_FILE_SIZE
  by_cases hgt : content.length > 20 * 1024 * 1024
  · refine ⟨?_, fun _ => by simp [hgt]⟩
    simp only [hgt, if_true]
    constructor
    · intro h; exact absurd h (by simp)
    · intro h; omega
  · refine ⟨?_, fun hc => absurd hc hgt⟩
    simp only [hgt, if_false]
    constructor
    · intro _; omega
    · intro _; trivial

/-- Witness for C5 at the boundary: content of exactly 20 × 1024 × 1024
bytes passes, and content one byte longer is rejected. -/
theorem c5_size_boundary_witness :
    InvoiceServices.validateSizeFile
      (String.mk (List.replicate (20 * 1024 * 1024) 'a')) = Except.ok () ∧
    InvoiceServices.validateSizeFile
      (String.mk (List.replicate (20 * 1024 * 1024 + 1) 'a')) =
      Except.error "File exceeds maximum allowed size of 20MB" := by
  constructor
  · exact (c5_size_boundary _).1.mpr (by
      show (List.replicate (20 * 1024 * 1024) 'a').length ≤ 20 * 1024 * 1024
      rw [List.length_replicate])
  · exact (c5_size_boundary _).2 (by
      show (List.replicate (20 * 1024 * 1024 + 1) 'a').length > 20 * 1024 * 1024
      rw [List.length_replicate]
      omega)

/-- C6: on the repository's minimal unencrypted PDF fixture (header,
catalog/pages/page objects, xref, trailer without an Encrypt key) the
Encryption Detector answers false, and on the minimal fixture whose trailer
references object 4 as /Encrypt and whose body holds a /Filter/Standard
dictionary it answers true. -/
theorem c6_encryption_fixtures :
    InvoiceServices.isPdfEncrypted unencryptedPdfFixture = false ∧
    InvoiceServices.isPdfEncrypted encryptedPdfFixture = true := by
  constructor
  · decide
  · decide

end FinInvoice
